import Mathlib

/-!
Verification of the FuzzyFortnight01 battle-royale bookkeeping engine
(`src/main.py`): lobby/match lifecycle, prize accounting, profile
settlement and the deterministic hash-based selectors.

The Python engine is shallowly embedded: dictionaries become insertion-
ordered association lists (`dget`/`dset` mirror `d[k]`/`d[k] = v`),
`str.strip()` becomes `pyStrip` (drop whitespace at both ends),
`str.lower()` becomes `pyLower` (per-character ASCII lowercasing, which
agrees with Python on the ASCII addresses this contract uses), exceptions
become `Except`, and `time.time()` becomes an explicit `now : Nat`
argument at each call that reads the clock.
-/

set_option maxHeartbeats 1000000
set_option maxRecDepth 8000
set_option linter.unusedVariables false

namespace FF01

/-! ### Constants (`src/main.py` top of file) -/

def FF01_ARENA_SEED : String :=
  "0xf91a2b3c4d5e6f708192a3b4c5d6e7f8091a2b3c4d5e6f708192a3b4c5d6e7f80"

def FF01_MAX_PLAYERS_PER_LOBBY : Nat := 100

def FF01_MIN_PLAYERS_TO_START : Nat := 4

def FF01_ENTRY_FEE_WEI : Nat := 10000000000000000

def FF01_PRIZE_POOL_BP : Nat := 8500

def FF01_BP_DENOM : Nat := 10000

def FF01_XP_PER_KILL : Nat := 100

def FF01_XP_PER_WIN : Nat := 500

/-! ### Python dict as insertion-ordered association list -/

def dget {α : Type} : List (String × α) → String → Option α
  | [], _ => none
  | (k', v) :: rest, k => if k' = k then some v else dget rest k

def dset {α : Type} : List (String × α) → String → α → List (String × α)
  | [], k, v => [(k, v)]
  | (k', v') :: rest, k, v =>
      if k' = k then (k, v) :: rest else (k', v') :: dset rest k v

/-! ### Python string helpers: `s.strip()`, `s.lower()`, `s.strip().lower()` -/

def pyStrip (s : String) : String :=
  ⟨((s.data.dropWhile Char.isWhitespace).reverse.dropWhile Char.isWhitespace).reverse⟩

def pyLower (s : String) : String :=
  ⟨s.data.map Char.toLower⟩

def pyNorm (s : String) : String :=
  pyLower (pyStrip s)

/-! ### Data model (`PlayerProfile`, `LobbyState`, `MatchResult`, events) -/

deriving instance DecidableEq for Except

inductive FF01Phase where
  | WAITING
  | COUNTDOWN
  | IN_PROGRESS
  | FINISHED
  deriving DecidableEq, Repr

inductive FF01Err where
  | LobbyFull (lobby_id : String)
  | NotGameMaster
  | MatchNotFinished (match_id : String)
  | InsufficientEntry (sent required : Int)
  | LobbyNotFound (lobby_id : String)
  deriving DecidableEq, Repr

inductive FF01Event where
  | LobbyCreated (lobbyId creator : String) (entryFeeWei : Int)
  | PlayerJoined (lobbyId player : String)
  | MatchStarted (matchId lobbyId : String) (playerCount : Nat)
  | MatchEnded (matchId : String) (winner : Option String)
  | KillRecorded (matchId killer victim : String)
  deriving DecidableEq, Repr

structure PlayerProfile where
  address : String
  total_kills : Nat
  total_wins : Nat
  total_matches : Nat
  xp : Nat
  season_id : Int
  joined_at : Nat
  deriving DecidableEq, Repr

structure LobbyState where
  lobby_id : String
  creator : String
  players : List String
  phase : FF01Phase
  match_id : Option String
  created_at : Nat
  entry_fee_wei : Int
  deriving DecidableEq, Repr

structure MatchResult where
  match_id : String
  winner : Option String
  kills : List (String × Nat)
  started_at : Nat
  ended_at : Nat
  deriving DecidableEq, Repr

structure Engine where
  lobbies : List (String × LobbyState)
  matches_ : List (String × MatchResult)
  profiles : List (String × PlayerProfile)
  event_log : List FF01Event
  current_season_id : Int
  next_match_id : Nat
  next_lobby_id : Nat
  deriving DecidableEq, Repr

def Engine.init : Engine :=
  { lobbies := [], matches_ := [], profiles := [], event_log := [],
    current_season_id := 1, next_match_id := 1, next_lobby_id := 1 }

def mkLobbyId (n : Nat) : String := "lobby-" ++ Nat.repr n

def mkMatchId (n : Nat) : String := "match-" ++ Nat.repr n

/-! ### Operations -/

def create_lobby (s : Engine) (creator : String) (entry_fee_wei : Int) (now : Nat) :
    Engine × String :=
  let lid := mkLobbyId s.next_lobby_id
  let fee : Int :=
    if 0 < entry_fee_wei ∧ entry_fee_wei ≤ (FF01_ENTRY_FEE_WEI : Int) * 2
    then entry_fee_wei else (FF01_ENTRY_FEE_WEI : Int)
  let lobby : LobbyState :=
    { lobby_id := lid, creator := creator, players := [],
      phase := FF01Phase.WAITING, match_id := none,
      created_at := now, entry_fee_wei := fee }
  ({ s with lobbies := dset s.lobbies lid lobby,
            next_lobby_id := s.next_lobby_id + 1,
            event_log := s.event_log ++ [FF01Event.LobbyCreated lid creator fee] },
   lid)

def join_lobby (s : Engine) (lobby_id player : String) (value_wei : Int) :
    Except FF01Err Engine :=
  match dget s.lobbies lobby_id with
  | none => .error (.LobbyNotFound lobby_id)
  | some lobby =>
      if lobby.phase ≠ FF01Phase.WAITING then .error (.LobbyNotFound lobby_id)
      else if FF01_MAX_PLAYERS_PER_LOBBY ≤ lobby.players.length then
        .error (.LobbyFull lobby_id)
      else if value_wei < lobby.entry_fee_wei then
        .error (.InsufficientEntry value_wei lobby.entry_fee_wei)
      else
        let key := pyNorm player
        let players' :=
          if key ∈ lobby.players.map pyLower then lobby.players
          else lobby.players ++ [player]
        .ok { s with
          lobbies := dset s.lobbies lobby_id { lobby with players := players' },
          event_log := s.event_log ++ [FF01Event.PlayerJoined lobby_id player] }

def start_match (s : Engine) (lobby_id caller : String) (now : Nat) :
    Except FF01Err (Engine × String) :=
  match dget s.lobbies lobby_id with
  | none => .error (.LobbyNotFound lobby_id)
  | some lobby =>
      if pyNorm caller ≠ pyNorm lobby.creator then .error .NotGameMaster
      else if lobby.players.length < FF01_MIN_PLAYERS_TO_START then
        .error (.LobbyFull lobby_id)
      else
        let mid := mkMatchId s.next_match_id
        let m : MatchResult :=
          { match_id := mid, winner := none,
            kills := lobby.players.foldl (fun d p => dset d p 0) [],
            started_at := now, ended_at := 0 }
        .ok ({ s with
          lobbies := dset s.lobbies lobby_id
            { lobby with phase := FF01Phase.IN_PROGRESS, match_id := some mid },
          matches_ := dset s.matches_ mid m,
          next_match_id := s.next_match_id + 1,
          event_log := s.event_log ++
            [FF01Event.MatchStarted mid lobby_id lobby.players.length] }, mid)

def record_kill (s : Engine) (match_id killer victim caller : String) : Engine :=
  match dget s.matches_ match_id with
  | none => s
  | some m =>
      if 0 < m.ended_at then s
      else
        let k := pyNorm killer
        let keys := m.kills.map (fun e => pyLower e.1)
        let kills' :=
          if k ∈ keys then dset m.kills killer ((dget m.kills killer).getD 0 + 1)
          else m.kills
        { s with
          matches_ := dset s.matches_ match_id { m with kills := kills' },
          event_log := s.event_log ++ [FF01Event.KillRecorded match_id killer victim] }

def freshProfile (addr : String) (season : Int) (now : Nat) : PlayerProfile :=
  { address := addr, total_kills := 0, total_wins := 0, total_matches := 0,
    xp := 0, season_id := season, joined_at := now }

def ff01_settle_step (season : Int) (now : Nat)
    (profiles : List (String × PlayerProfile)) (entry : String × Nat) :
    List (String × PlayerProfile) :=
  let addr := entry.1
  let k := entry.2
  let key := pyLower addr
  let prof := (dget profiles key).getD (freshProfile addr season now)
  dset profiles key
    { prof with total_kills := prof.total_kills + k,
                total_matches := prof.total_matches + 1,
                xp := prof.xp + k * FF01_XP_PER_KILL }

def ff01_settle_all (season : Int) (now : Nat)
    (profiles : List (String × PlayerProfile)) (kills : List (String × Nat)) :
    List (String × PlayerProfile) :=
  kills.foldl (ff01_settle_step season now) profiles

def end_match (s : Engine) (match_id : String) (winner : Option String)
    (caller : String) (now : Nat) : Except FF01Err Engine :=
  match dget s.matches_ match_id with
  | none => .error (.LobbyNotFound match_id)
  | some m =>
      let m' := { m with winner := winner, ended_at := now }
      let profiles1 := ff01_settle_all s.current_season_id now s.profiles m.kills
      let profiles2 :=
        match winner with
        | some w =>
            if w ≠ "" then
              match dget profiles1 (pyNorm w) with
              | some p => dset profiles1 (pyNorm w)
                  { p with total_wins := p.total_wins + 1, xp := p.xp + FF01_XP_PER_WIN }
              | none => profiles1
            else profiles1
        | none => profiles1
      .ok { s with matches_ := dset s.matches_ match_id m',
                   profiles := profiles2,
                   event_log := s.event_log ++ [FF01Event.MatchEnded match_id winner] }

def claim_prize (s : Engine) (match_id player : String) : Except FF01Err Nat :=
  match dget s.matches_ match_id with
  | none => .error (.LobbyNotFound match_id)
  | some m =>
      if m.ended_at ≤ 0 then .error (.MatchNotFinished match_id)
      else
        let pool := m.kills.length * FF01_ENTRY_FEE_WEI
        let share := pool * FF01_PRIZE_POOL_BP / FF01_BP_DENOM
        match m.winner with
        | some w =>
            if w ≠ "" ∧ pyNorm player = pyNorm w then .ok share else .ok 0
        | none => .ok 0

def get_player_profile (s : Engine) (address : String) : Option PlayerProfile :=
  dget s.profiles (pyNorm address)

def get_lobby (s : Engine) (lobby_id : String) : Option LobbyState :=
  dget s.lobbies lobby_id

def get_match (s : Engine) (match_id : String) : Option MatchResult :=
  dget s.matches_ match_id

/-! ### SHA-256 (pure Nat implementation, mirrors `hashlib.sha256(...).hexdigest()`) -/

def w32 : Nat := 4294967296

def rotr32 (x n : Nat) : Nat := ((x <<< (32 - n)) % w32) ||| (x >>> n)

def shaS0 (x : Nat) : Nat := (x >>> 3) ^^^ (rotr32 x 18) ^^^ (rotr32 x 7)

def shaS1 (x : Nat) : Nat := (x >>> 10) ^^^ (rotr32 x 19) ^^^ (rotr32 x 17)

def shaB0 (x : Nat) : Nat := (rotr32 x 22) ^^^ (rotr32 x 13) ^^^ (rotr32 x 2)

def shaB1 (x : Nat) : Nat := (rotr32 x 25) ^^^ (rotr32 x 11) ^^^ (rotr32 x 6)

def shaCh (e f g : Nat) : Nat := ((e ^^^ 4294967295) &&& g) ^^^ (e &&& f)

def shaMaj (a b c : Nat) : Nat := ((b &&& c) ^^^ (a &&& c)) ^^^ (a &&& b)

def sha_k : List Nat :=
  [1116352408, 1899447441, 3049323471, 3921009573, 961987163,
   1508970993, 2453635748, 2870763221, 3624381080, 310598401,
   607225278, 1426881987, 1925078388, 2162078206, 2614888103,
   3248222580, 3835390401, 4022224774, 264347078, 604807628,
   770255983, 1249150122, 1555081692, 1996064986, 2554220882,
   2821834349, 2952996808, 3210313671, 3336571891, 3584528711,
   113926993, 338241895, 666307205, 773529912, 1294757372,
   1396182291, 1695183700, 1986661051, 2177026350, 2456956037,
   2730485921, 2820302411, 3259730800, 3345764771, 3516065817,
   3600352804, 4094571909, 275423344, 430227734, 506948616,
   659060556, 883997877, 958139571, 1322822218, 1537002063,
   1747873779, 1955562222, 2024104815, 2227730452, 2361852424,
   2428436474, 2756734187, 3204031479, 3329325298]

def sha_h0 : List Nat :=
  [1779033703, 3144134277, 1013904242, 2773480762,
   1359893119, 2600822924, 528734635, 1541459225]

def utf8Bytes (s : String) : List Nat :=
  (s.data.map (fun c =>
    let n := c.toNat
    if n < 0x80 then [n]
    else if n < 0x800 then
      [0xc0 ||| (n >>> 6), 0x80 ||| (n &&& 0x3f)]
    else if n < 0x10000 then
      [0xe0 ||| (n >>> 12), 0x80 ||| ((n >>> 6) &&& 0x3f), 0x80 ||| (n &&& 0x3f)]
    else
      [0xf0 ||| (n >>> 18), 0x80 ||| ((n >>> 12) &&& 0x3f),
       0x80 ||| ((n >>> 6) &&& 0x3f), 0x80 ||| (n &&& 0x3f)])).flatten

def padBytes (msg : List Nat) : List Nat :=
  let len := msg.length
  let padZeros := (119 - len % 64) % 64
  msg ++ [0x80] ++ List.replicate padZeros 0 ++
    [((len * 8) >>> 56) &&& 0xff, ((len * 8) >>> 48) &&& 0xff,
     ((len * 8) >>> 40) &&& 0xff, ((len * 8) >>> 32) &&& 0xff,
     ((len * 8) >>> 24) &&& 0xff, ((len * 8) >>> 16) &&& 0xff,
     ((len * 8) >>> 8) &&& 0xff, (len * 8) &&& 0xff]

def toChunks : Nat → List Nat → List (List Nat)
  | 0, _ => []
  | _, [] => []
  | fuel + 1, l => l.take 64 :: toChunks fuel (l.drop 64)

def extendSched : Nat → List Nat → List Nat
  | 0, w => w
  | fuel + 1, w =>
      let i := w.length
      extendSched fuel (w ++
        [(w.getD (i - 16) 0 + shaS0 (w.getD (i - 15) 0) +
          w.getD (i - 7) 0 + shaS1 (w.getD (i - 2) 0)) % w32])

def shaRound (st : List Nat) (p : Nat × Nat) : List Nat :=
  match st with
  | [a, b, c, d, e, f, g, h] =>
      let t1 := (h + shaB1 e + shaCh e f g + p.1 + p.2) % w32
      let t2 := (shaB0 a + shaMaj a b c) % w32
      [(t1 + t2) % w32, a, b, c, (d + t1) % w32, e, f, g]
  | other => other

def processChunk (h : List Nat) (chunk : List Nat) : List Nat :=
  let words16 := (List.range 16).map (fun i =>
    ((chunk.getD (4 * i) 0) <<< 24) ||| ((chunk.getD (4 * i + 1) 0) <<< 16) |||
    ((chunk.getD (4 * i + 2) 0) <<< 8) ||| chunk.getD (4 * i + 3) 0)
  let w := extendSched 48 words16
  let st := (sha_k.zip w).foldl shaRound h
  (h.zip st).map (fun p => (p.1 + p.2) % w32)

def sha256Words (msg : List Nat) : List Nat :=
  (toChunks (padBytes msg).length (padBytes msg)).foldl processChunk sha_h0

def wordHex (x : Nat) : List Char :=
  [Nat.digitChar ((x >>> 28) &&& 15), Nat.digitChar ((x >>> 24) &&& 15),
   Nat.digitChar ((x >>> 20) &&& 15), Nat.digitChar ((x >>> 16) &&& 15),
   Nat.digitChar ((x >>> 12) &&& 15), Nat.digitChar ((x >>> 8) &&& 15),
   Nat.digitChar ((x >>> 4) &&& 15), Nat.digitChar (x &&& 15)]

def sha256_hexdigest (s : String) : String :=
  ⟨((sha256Words (utf8Bytes s)).map wordHex).flatten⟩

/-! ### Loot, weapon and map tables and deterministic selectors -/

def FF01_WEAPON_NAMES : List String :=
  ["ScatterBlaster", "SnipeRay", "PlasmaRifle", "RocketLauncher", "LaserPistol",
   "FrostCannon", "ChaosGrenade", "VoidBow", "FlameThrower", "TeslaCoil",
   "GravityHammer", "ShockBaton", "PoisonDart", "SilentKnife", "MegaShotgun"]

def FF01_LOOT_RARITY : List String :=
  ["Common", "Uncommon", "Rare", "Epic", "Legendary"]

def FF01_MAP_NAMES : List String :=
  ["DustyDesert", "FrostPeak", "ToxicSwamp", "NeonCity", "RuinIsland",
   "VolcanoBase", "SkyPlatform", "UndergroundBunker", "JungleTemple", "SpaceStation"]

def hexVal (c : Char) : Nat :=
  if 97 ≤ c.toNat then c.toNat - 87 else c.toNat - 48

def hexSliceNat (h : String) (a b : Nat) : Nat :=
  ((h.data.drop a).take (b - a)).foldl (fun acc c => acc * 16 + hexVal c) 0

def ff01_weapon_for_seed (seed : String) (index : Nat) : String :=
  let h := sha256_hexdigest (seed ++ "-weapon-" ++ Nat.repr index)
  let idx := hexSliceNat h 0 8 % FF01_WEAPON_NAMES.length
  FF01_WEAPON_NAMES.getD idx ""

def ff01_loot_rarity_for_seed (seed : String) (index : Nat) : String :=
  let h := sha256_hexdigest (seed ++ "-loot-" ++ Nat.repr index)
  let idx := hexSliceNat h 8 16 % FF01_LOOT_RARITY.length
  FF01_LOOT_RARITY.getD idx ""

def ff01_map_for_match (match_id : String) : String :=
  let h := sha256_hexdigest (FF01_ARENA_SEED ++ "-map-" ++ match_id)
  let idx := hexSliceNat h 16 24 % FF01_MAP_NAMES.length
  FF01_MAP_NAMES.getD idx ""

/-- Generic shape of the deterministic selectors: hash the message, read the
hex slice `[lo, hi)` of the digest as an unsigned integer, reduce it modulo
the table length and index the table. -/
def ff01_select (msg : String) (lo hi : Nat) (table : List String) : String :=
  table.getD (hexSliceNat (sha256_hexdigest msg) lo hi % table.length) ""

/-! ### Operation sequences (for lifetime invariants) -/

inductive FF01Op where
  | createLobby (creator : String) (entryFee : Int) (now : Nat)
  | joinLobby (lobbyId player : String) (value : Int)
  | startMatch (lobbyId caller : String) (now : Nat)
  | recordKill (matchId killer victim caller : String)
  | endMatch (matchId : String) (winner : Option String) (caller : String) (now : Nat)
  deriving DecidableEq, Repr

def applyOp (s : Engine) : FF01Op → Engine
  | .createLobby c f now => (create_lobby s c f now).1
  | .joinLobby lid p v =>
      match join_lobby s lid p v with
      | .ok s' => s'
      | .error _ => s
  | .startMatch lid c now =>
      match start_match s lid c now with
      | .ok r => r.1
      | .error _ => s
  | .recordKill mid k v c => record_kill s mid k v c
  | .endMatch mid w c now =>
      match end_match s mid w c now with
      | .ok s' => s'
      | .error _ => s

def applyOps (s : Engine) (ops : List FF01Op) : Engine :=
  ops.foldl applyOp s

/-! ### Concrete scenario states (spec §8 scenario) -/

def ENG_LOBBY : Engine :=
  applyOps Engine.init [
    .createLobby "Alice" 10000000000000000 5,
    .joinLobby "lobby-1" "Alice" 10000000000000000,
    .joinLobby "lobby-1" "Bob" 10000000000000000,
    .joinLobby "lobby-1" "Carol" 10000000000000000,
    .joinLobby "lobby-1" "Dave" 10000000000000000]

def ENG_START : Engine :=
  applyOp ENG_LOBBY (.startMatch "lobby-1" "Alice" 10)

def ENG_MATCH : Engine :=
  applyOps ENG_LOBBY [
    .startMatch "lobby-1" "Alice" 10,
    .recordKill "match-1" "Alice" "Bob" "x",
    .recordKill "match-1" "Alice" "Carol" "x",
    .recordKill "match-1" "Bob" "Dave" "x"]

def ENG_END : Engine :=
  applyOp ENG_MATCH (.endMatch "match-1" (some "Alice") "x" 20)

/-! ### Helper lemmas and abbreviations -/

def lobbyStarted (lobby : LobbyState) (mid : String) : LobbyState :=
  { lobby with phase := FF01Phase.IN_PROGRESS, match_id := some mid }

def newMatch (mid : String) (players : List String) (now : Nat) : MatchResult :=
  { match_id := mid, winner := none,
    kills := players.foldl (fun d p => dset d p 0) [],
    started_at := now, ended_at := 0 }

def joinPlayers (players : List String) (player : String) : List String :=
  if pyNorm player ∈ players.map pyLower then players else players ++ [player]

def killsAfter (kills : List (String × Nat)) (killer : String) : List (String × Nat) :=
  if pyNorm killer ∈ kills.map (fun e => pyLower e.1)
  then dset kills killer ((dget kills killer).getD 0 + 1)
  else kills

/-! ### Injectivity of the sequential id strings `match-<n>` -/

def digitVal (c : Char) : Nat :=
  if c = '0' then 0 else if c = '1' then 1 else if c = '2' then 2 else
  if c = '3' then 3 else if c = '4' then 4 else if c = '5' then 5 else
  if c = '6' then 6 else if c = '7' then 7 else if c = '8' then 8 else 9

def digitsRec (n : Nat) : List Char :=
  if n < 10 then [Nat.digitChar (n % 10)]
  else digitsRec (n / 10) ++ [Nat.digitChar (n % 10)]
termination_by n
decreasing_by exact Nat.div_lt_self (by omega) (by omega)

def readNum (l : List Char) : Nat :=
  l.foldl (fun acc c => acc * 10 + digitVal c) 0

/-! ### Match-id freshness and kill-count monotonicity (for C4) -/

def MatchIdsWf (s : Engine) : Prop :=
  ∀ i, s.next_match_id ≤ i → dget s.matches_ (mkMatchId i) = none

def KillsMono (k₁ k₂ : List (String × Nat)) : Prop :=
  ∀ key v, dget k₁ key = some v → ∃ v', dget k₂ key = some v' ∧ v ≤ v'

/-! ### Profile settlement on match end (for C1) -/

def settledProfile (old : Option PlayerProfile) (addr : String) (k : Nat)
    (season : Int) (now : Nat) : PlayerProfile :=
  let prof := old.getD (freshProfile addr season now)
  { prof with total_kills := prof.total_kills + k,
              total_matches := prof.total_matches + 1,
              xp := prof.xp + k * FF01_XP_PER_KILL }

def winnerBoost (profiles : List (String × PlayerProfile)) (w : Option String) :
    List (String × PlayerProfile) :=
  match w with
  | some wn =>
      if wn ≠ "" then
        match dget profiles (pyNorm wn) with
        | some p => dset profiles (pyNorm wn)
            { p with total_wins := p.total_wins + 1, xp := p.xp + FF01_XP_PER_WIN }
        | none => profiles
      else profiles
  | none => profiles

/-! ### Lobby capacity invariant (for C7) -/

def LobbyCapInv (s : Engine) : Prop :=
  ∀ lid lobby, dget s.lobbies lid = some lobby →
    lobby.players.length ≤ FF01_MAX_PLAYERS_PER_LOBBY

/-! ### Theorems -/

theorem dget_dset_self {α : Type} (l : List (String × α)) (k : String) (v : α) :
    dget (dset l k v) k = some v := by
  induction l with
  | nil => simp [dget, dset]
  | cons hd tl ih =>
      obtain ⟨k', v'⟩ := hd
      by_cases h : k' = k
      · simp [dget, dset, h]
      · simp [dget, dset, h, ih]

theorem dget_dset_ne {α : Type} (l : List (String × α)) (k k' : String) (v : α)
    (h : k ≠ k') : dget (dset l k v) k' = dget l k' := by
  induction l with
  | nil => simp [dget, dset, h]
  | cons hd tl ih =>
      obtain ⟨k₀, v₀⟩ := hd
      by_cases h₀ : k₀ = k
      · subst h₀; simp [dget, dset, h]
      · simp only [dset, if_neg h₀, dget]
        by_cases h₁ : k₀ = k'
        · simp [h₁]
        · simp [h₁, ih]

theorem dset_dset_self {α : Type} (l : List (String × α)) (k : String) (v w : α) :
    dset (dset l k v) k w = dset l k w := by
  induction l with
  | nil => simp [dset]
  | cons hd tl ih =>
      obtain ⟨k₀, v₀⟩ := hd
      by_cases h : k₀ = k
      · simp [dset, h]
      · simp [dset, h, ih]

theorem dget_seed_fold (players : List String) (d : List (String × Nat)) (p : String) :
    dget (players.foldl (fun d q => dset d q 0) d) p =
      if p ∈ players then some 0 else dget d p := by
  induction players generalizing d with
  | nil => simp
  | cons h t ih =>
      simp only [List.foldl_cons, ih, List.mem_cons]
      by_cases hp : p ∈ t
      · simp [hp]
      · by_cases hph : p = h
        · subst hph
          simp [hp, dget_dset_self]
        · simp [hp, hph, dget_dset_ne _ _ _ _ (fun hc => hph hc.symm)]

theorem join_lobby_ok_inv (s : Engine) (lid player : String) (v : Int) (s' : Engine)
    (h : join_lobby s lid player v = .ok s') :
    ∃ lobby, dget s.lobbies lid = some lobby ∧
      lobby.phase = FF01Phase.WAITING ∧
      lobby.players.length < FF01_MAX_PLAYERS_PER_LOBBY ∧
      s'.lobbies = dset s.lobbies lid { lobby with players := joinPlayers lobby.players player } ∧
      s'.matches_ = s.matches_ ∧
      s'.profiles = s.profiles ∧
      s'.next_match_id = s.next_match_id ∧
      s'.event_log = s.event_log ++ [FF01Event.PlayerJoined lid player] := by
  unfold join_lobby at h
  cases hlob : dget s.lobbies lid with
  | none => rw [hlob] at h; cases h
  | some lobby =>
      rw [hlob] at h
      dsimp only at h
      by_cases h1 : lobby.phase ≠ FF01Phase.WAITING
      · rw [if_pos h1] at h; cases h
      · rw [if_neg h1] at h
        by_cases h2 : FF01_MAX_PLAYERS_PER_LOBBY ≤ lobby.players.length
        · rw [if_pos h2] at h; cases h
        · rw [if_neg h2] at h
          by_cases h3 : v < lobby.entry_fee_wei
          · rw [if_pos h3] at h; cases h
          · rw [if_neg h3] at h
            injection h with h
            subst h
            exact ⟨lobby, rfl, not_not.mp h1, not_le.mp h2, rfl, rfl, rfl, rfl, rfl⟩

theorem start_match_ok_inv (s : Engine) (lid caller : String) (now : Nat)
    (r : Engine × String) (h : start_match s lid caller now = .ok r) :
    ∃ lobby, dget s.lobbies lid = some lobby ∧
      pyNorm caller = pyNorm lobby.creator ∧
      FF01_MIN_PLAYERS_TO_START ≤ lobby.players.length ∧
      r.2 = mkMatchId s.next_match_id ∧
      r.1.lobbies = dset s.lobbies lid (lobbyStarted lobby r.2) ∧
      r.1.matches_ = dset s.matches_ r.2 (newMatch r.2 lobby.players now) ∧
      r.1.profiles = s.profiles ∧
      r.1.next_match_id = s.next_match_id + 1 ∧
      r.1.event_log = s.event_log ++
        [FF01Event.MatchStarted r.2 lid lobby.players.length] := by
  unfold start_match at h
  cases hlob : dget s.lobbies lid with
  | none => rw [hlob] at h; cases h
  | some lobby =>
      rw [hlob] at h
      dsimp only at h
      split_ifs at h with h1 h2
      injection h with h
      subst h
      exact ⟨lobby, rfl, not_not.mp h1, not_lt.mp h2, rfl, rfl, rfl, rfl, rfl, rfl⟩

theorem end_match_ok_inv (s : Engine) (mid : String) (w : Option String)
    (caller : String) (now : Nat) (s' : Engine)
    (h : end_match s mid w caller now = .ok s') :
    ∃ m, dget s.matches_ mid = some m ∧
      s'.lobbies = s.lobbies ∧
      s'.matches_ = dset s.matches_ mid { m with winner := w, ended_at := now } ∧
      s'.next_match_id = s.next_match_id := by
  unfold end_match at h
  cases hm : dget s.matches_ mid with
  | none => rw [hm] at h; cases h
  | some m =>
      rw [hm] at h
      dsimp only at h
      injection h with h
      subst h
      exact ⟨m, rfl, rfl, rfl, rfl⟩

theorem record_kill_cases (s : Engine) (mid killer victim caller : String) :
    record_kill s mid killer victim caller = s ∨
    ∃ m, dget s.matches_ mid = some m ∧ m.ended_at = 0 ∧
      (record_kill s mid killer victim caller).lobbies = s.lobbies ∧
      (record_kill s mid killer victim caller).matches_ =
        dset s.matches_ mid { m with kills := killsAfter m.kills killer } ∧
      (record_kill s mid killer victim caller).next_match_id = s.next_match_id := by
  unfold record_kill
  cases hm : dget s.matches_ mid with
  | none => exact Or.inl rfl
  | some m =>
      by_cases hend : 0 < m.ended_at
      · refine Or.inl ?_
        dsimp only
        rw [if_pos hend]
      · refine Or.inr ⟨m, rfl, Nat.eq_zero_of_not_pos hend, ?_, ?_, ?_⟩ <;>
          (dsimp only; rw [if_neg hend]; try rfl)

theorem create_lobby_lookup (s : Engine) (creator : String) (fee : Int) (now : Nat) :
    dget (create_lobby s creator fee now).1.lobbies (create_lobby s creator fee now).2 =
      some { lobby_id := mkLobbyId s.next_lobby_id, creator := creator, players := [],
             phase := FF01Phase.WAITING, match_id := none, created_at := now,
             entry_fee_wei :=
               if 0 < fee ∧ fee ≤ (FF01_ENTRY_FEE_WEI : Int) * 2
               then fee else (FF01_ENTRY_FEE_WEI : Int) } := by
  simp only [create_lobby]
  exact dget_dset_self ..

/-- Claim C5: `create_lobby` with a requested fee that is zero, negative, or
greater than twice the canonical entry fee stores the canonical default fee
(the operation is total, so no error is possible), and any requested fee
strictly greater than zero and at most twice the canonical fee is stored
exactly as requested. -/
theorem C5_create_lobby_fee (s : Engine) (creator : String) (fee : Int) (now : Nat) :
    (fee ≤ 0 ∨ (FF01_ENTRY_FEE_WEI : Int) * 2 < fee →
      ∃ lobby, dget (create_lobby s creator fee now).1.lobbies
          (create_lobby s creator fee now).2 = some lobby ∧
        lobby.entry_fee_wei = (FF01_ENTRY_FEE_WEI : Int)) ∧
    (0 < fee ∧ fee ≤ (FF01_ENTRY_FEE_WEI : Int) * 2 →
      ∃ lobby, dget (create_lobby s creator fee now).1.lobbies
          (create_lobby s creator fee now).2 = some lobby ∧
        lobby.entry_fee_wei = fee) := by
  constructor
  · intro h
    have hcond : ¬ (0 < fee ∧ fee ≤ (FF01_ENTRY_FEE_WEI : Int) * 2) := by
      rcases h with h | h
      · exact fun hc => absurd hc.1 (not_lt.mpr h)
      · exact fun hc => absurd hc.2 (not_le.mpr h)
    exact ⟨_, create_lobby_lookup .., by simp [if_neg hcond]⟩
  · intro h
    exact ⟨_, create_lobby_lookup .., by simp [if_pos h]⟩

/-- Witness for C5 at concrete inputs: a negative requested fee is replaced by
the canonical fee, and an in-range fee of 123 is kept. -/
theorem C5_create_lobby_fee_witness :
    (∃ lobby, dget (create_lobby Engine.init "A" (-5) 7).1.lobbies
        (create_lobby Engine.init "A" (-5) 7).2 = some lobby ∧
      lobby.entry_fee_wei = (FF01_ENTRY_FEE_WEI : Int)) ∧
    (∃ lobby, dget (create_lobby Engine.init "A" 123 7).1.lobbies
        (create_lobby Engine.init "A" 123 7).2 = some lobby ∧
      lobby.entry_fee_wei = 123) :=
  ⟨(C5_create_lobby_fee Engine.init "A" (-5) 7).1 (Or.inl (by decide)),
   (C5_create_lobby_fee Engine.init "A" 123 7).2 ⟨by decide, by decide⟩⟩

/-- Claim C6: `join_lobby` raises the LobbyNotFound kind both for an unknown
lobby id and for a known lobby that is not in WAITING phase; raises LobbyFull
when (WAITING and) membership is at the maximum; raises InsufficientEntry when
(WAITING, not full and) the value sent is strictly below the lobby's
configured fee; and raises no error otherwise. -/
theorem C6_join_lobby_errors (s : Engine) (lid player : String) (v : Int) :
    (dget s.lobbies lid = none →
      join_lobby s lid player v = .error (.LobbyNotFound lid)) ∧
    (∀ lobby, dget s.lobbies lid = some lobby →
      (lobby.phase ≠ FF01Phase.WAITING →
        join_lobby s lid player v = .error (.LobbyNotFound lid)) ∧
      (lobby.phase = FF01Phase.WAITING →
        FF01_MAX_PLAYERS_PER_LOBBY ≤ lobby.players.length →
        join_lobby s lid player v = .error (.LobbyFull lid)) ∧
      (lobby.phase = FF01Phase.WAITING →
        lobby.players.length < FF01_MAX_PLAYERS_PER_LOBBY →
        v < lobby.entry_fee_wei →
        join_lobby s lid player v = .error (.InsufficientEntry v lobby.entry_fee_wei)) ∧
      (lobby.phase = FF01Phase.WAITING →
        lobby.players.length < FF01_MAX_PLAYERS_PER_LOBBY →
        lobby.entry_fee_wei ≤ v →
        ∃ s', join_lobby s lid player v = .ok s')) := by
  constructor
  · intro h
    simp [join_lobby, h]
  · intro lobby hlob
    refine ⟨?_, ?_, ?_, ?_⟩
    · intro hph
      simp [join_lobby, hlob, hph]
    · intro hph hfull
      simp [join_lobby, hlob, hph, not_lt.mpr hfull]
    · intro hph hroom hval
      simp [join_lobby, hlob, hph, not_le.mpr hroom, hval]
    · intro hph hroom hval
      simp only [join_lobby, hlob]
      rw [if_neg (by simp [hph]), if_neg (not_le.mpr hroom), if_neg (not_lt.mpr hval)]
      exact ⟨_, rfl⟩

/-- Witness for C6 at concrete inputs: joining an unknown lobby fails with the
LobbyNotFound kind, and joining a freshly created lobby with the exact fee
succeeds. -/
theorem C6_join_lobby_errors_witness :
    (join_lobby Engine.init "lobby-1" "Bob" 0 = .error (.LobbyNotFound "lobby-1")) ∧
    (∃ s', join_lobby (create_lobby Engine.init "A" 50 7).1 "lobby-1" "Bob" 50 = .ok s') :=
  ⟨(C6_join_lobby_errors Engine.init "lobby-1" "Bob" 0).1 (by decide),
   ((C6_join_lobby_errors (create_lobby Engine.init "A" 50 7).1 "lobby-1" "Bob" 50).2
      ⟨"lobby-1", "A", [], FF01Phase.WAITING, none, 7, 50⟩
      (by decide)).2.2.2 (by decide) (by decide) (by decide)⟩

theorem dset_eq_self {α : Type} (l : List (String × α)) (k : String) (v : α)
    (h : dget l k = some v) : dset l k v = l := by
  induction l with
  | nil => cases h
  | cons hd tl ih =>
      obtain ⟨k₀, v₀⟩ := hd
      by_cases h₀ : k₀ = k
      · subst h₀
        simp only [dget, if_pos rfl] at h
        injection h with h
        subst h
        simp [dset]
      · simp only [dget, if_neg h₀] at h
        simp [dset, h₀, ih h]

/-- Counterexample to claim C3: in the live scenario match the kill-count
keys are ["Alice", "Bob", "Carol", "Dave"]; recording a kill by "ALICE"
matches the key "Alice" case-insensitively, yet "Alice"'s kill count stays 0:
the increment is written under the original string "ALICE", creating a fifth
entry with value 1 instead of incrementing the matched participant's count. -/
theorem C3_counterexample :
    pyNorm "ALICE" ∈ ["Alice", "Bob", "Carol", "Dave"].map pyLower ∧
    get_match ENG_START "match-1" =
      some ⟨"match-1", none,
        [("Alice", 0), ("Bob", 0), ("Carol", 0), ("Dave", 0)], 10, 0⟩ ∧
    get_match (record_kill ENG_START "match-1" "ALICE" "Bob" "ref") "match-1" =
      some ⟨"match-1", none,
        [("Alice", 0), ("Bob", 0), ("Carol", 0), ("Dave", 0), ("ALICE", 1)], 10, 0⟩ := by
  refine ⟨by decide, by decide, by decide⟩

/-- Claim C3 as amended: `record_kill` on an unknown match id, or on a match
whose end time is non-zero, raises no error and changes nothing (not even the
event log). Otherwise, when the normalized killer address matches one of the
kill-count keys case-insensitively, the count stored under the killer's
ORIGINAL string is set to one more than the count previously stored under
that exact string (zero if absent) — which increments the matched
participant's count only when the killer string equals that key exactly, and
otherwise creates a new entry with value one; when no key matches, no kill
count changes; in both of the latter cases a KillRecorded event is
appended. -/
theorem C3_record_kill_behavior (s : Engine) (mid killer victim caller : String) :
    (dget s.matches_ mid = none → record_kill s mid killer victim caller = s) ∧
    (∀ m, dget s.matches_ mid = some m → 0 < m.ended_at →
      record_kill s mid killer victim caller = s) ∧
    (∀ m, dget s.matches_ mid = some m → m.ended_at = 0 →
      (record_kill s mid killer victim caller).lobbies = s.lobbies ∧
      (record_kill s mid killer victim caller).profiles = s.profiles ∧
      (record_kill s mid killer victim caller).event_log =
        s.event_log ++ [FF01Event.KillRecorded mid killer victim] ∧
      (pyNorm killer ∈ m.kills.map (fun e => pyLower e.1) →
        (record_kill s mid killer victim caller).matches_ =
          dset s.matches_ mid
            { m with kills := dset m.kills killer ((dget m.kills killer).getD 0 + 1) }) ∧
      (pyNorm killer ∉ m.kills.map (fun e => pyLower e.1) →
        (record_kill s mid killer victim caller).matches_ = dset s.matches_ mid m)) := by
  refine ⟨?_, ?_, ?_⟩
  · intro h
    simp [record_kill, h]
  · intro m hm hend
    simp [record_kill, hm, hend]
  · intro m hm hend
    have hnot : ¬ 0 < m.ended_at := by simp [hend]
    refine ⟨?_, ?_, ?_, ?_, ?_⟩
    · simp only [record_kill, hm]
      rw [if_neg hnot]
    · simp only [record_kill, hm]
      rw [if_neg hnot]
    · simp only [record_kill, hm]
      rw [if_neg hnot]
    · intro hmem
      simp only [record_kill, hm]
      rw [if_neg hnot]
      dsimp only
      rw [if_pos hmem]
    · intro hmem
      simp only [record_kill, hm]
      rw [if_neg hnot]
      dsimp only
      rw [if_neg hmem]

/-- Witness for C3 (amended) at concrete inputs: an unknown match id is a
silent no-op; a kill on the already ended scenario match is a silent no-op;
and recording a kill for "Bob" (exact key match) increments "Bob"'s entry
under that exact string while appending the KillRecorded event. -/
theorem C3_record_kill_behavior_witness :
    record_kill ENG_START "match-9" "Alice" "Bob" "ref" = ENG_START ∧
    record_kill ENG_END "match-1" "Alice" "Bob" "ref" = ENG_END ∧
    (record_kill ENG_START "match-1" "Bob" "Dave" "ref").matches_ =
      dset ENG_START.matches_ "match-1"
        { match_id := "match-1", winner := none,
          kills := dset [("Alice", 0), ("Bob", 0), ("Carol", 0), ("Dave", 0)] "Bob"
            ((dget [("Alice", 0), ("Bob", 0), ("Carol", 0), ("Dave", 0)] "Bob").getD 0 + 1),
          started_at := 10, ended_at := 0 } ∧
    (record_kill ENG_START "match-1" "Bob" "Dave" "ref").event_log =
      ENG_START.event_log ++ [FF01Event.KillRecorded "match-1" "Bob" "Dave"] :=
  ⟨(C3_record_kill_behavior ENG_START "match-9" "Alice" "Bob" "ref").1 (by decide),
   (C3_record_kill_behavior ENG_END "match-1" "Alice" "Bob" "ref").2.1
     ⟨"match-1", some "Alice", [("Alice", 2), ("Bob", 1), ("Carol", 0), ("Dave", 0)],
       10, 20⟩ (by decide) (by decide),
   ((C3_record_kill_behavior ENG_START "match-1" "Bob" "Dave" "ref").2.2
     ⟨"match-1", none, [("Alice", 0), ("Bob", 0), ("Carol", 0), ("Dave", 0)], 10, 0⟩
     (by decide) (by decide)).2.2.2.1 (by decide),
   ((C3_record_kill_behavior ENG_START "match-1" "Bob" "Dave" "ref").2.2
     ⟨"match-1", none, [("Alice", 0), ("Bob", 0), ("Carol", 0), ("Dave", 0)], 10, 0⟩
     (by decide) (by decide)).2.2.1⟩

theorem digitVal_digitChar (d : Nat) (h : d < 10) :
    digitVal (Nat.digitChar d) = d := by
  interval_cases d <;> rfl

theorem readNum_append_singleton (l : List Char) (c : Char) :
    readNum (l ++ [c]) = readNum l * 10 + digitVal c := by
  simp [readNum, List.foldl_append]

theorem toDigitsCore_eq_digitsRec (fuel : Nat) :
    ∀ n ds, n < fuel → Nat.toDigitsCore 10 fuel n ds = digitsRec n ++ ds := by
  induction fuel with
  | zero => intro n ds h; omega
  | succ fuel ih =>
      intro n ds h
      simp only [Nat.toDigitsCore]
      by_cases h0 : n / 10 = 0
      · rw [if_pos h0, digitsRec]
        have hn : n < 10 := by omega
        rw [if_pos hn]
        rfl
      · rw [if_neg h0]
        have hlt : n / 10 < fuel := by
          have := Nat.div_lt_self (show 0 < n by omega) (show 1 < 10 by omega)
          omega
        rw [ih (n / 10) _ hlt]
        have hn : ¬ n < 10 := by omega
        conv_rhs => rw [digitsRec, if_neg hn]
        simp

theorem readNum_digitsRec (n : Nat) : readNum (digitsRec n) = n := by
  induction n using Nat.strong_induction_on with
  | _ n ih =>
      rw [digitsRec]
      by_cases hn : n < 10
      · rw [if_pos hn]
        have : readNum [Nat.digitChar (n % 10)] = digitVal (Nat.digitChar (n % 10)) := by
          simp [readNum]
        rw [this, digitVal_digitChar _ (Nat.mod_lt _ (by omega))]
        omega
      · rw [if_neg hn, readNum_append_singleton,
            ih (n / 10) (Nat.div_lt_self (by omega) (by omega)),
            digitVal_digitChar _ (Nat.mod_lt _ (by omega))]
        omega

theorem nat_repr_inj (m n : Nat) (h : Nat.repr m = Nat.repr n) : m = n := by
  have hd : (Nat.toDigits 10 m) = (Nat.toDigits 10 n) :=
    congrArg String.data h
  rw [Nat.toDigits, Nat.toDigits,
      toDigitsCore_eq_digitsRec _ _ _ (Nat.lt_succ_self m),
      toDigitsCore_eq_digitsRec _ _ _ (Nat.lt_succ_self n),
      List.append_nil, List.append_nil] at hd
  rw [← readNum_digitsRec m, ← readNum_digitsRec n, hd]

theorem mkMatchId_inj (m n : Nat) (h : mkMatchId m = mkMatchId n) : m = n := by
  apply nat_repr_inj
  have hd := congrArg String.data h
  simp only [mkMatchId, String.data_append] at hd
  have h2 := List.append_cancel_left hd
  have hext : ∀ (a b : String), a.data = b.data → a = b := by
    intro a b hab
    cases a
    cases b
    congr 1
  exact hext _ _ h2

theorem matchIdsWf_init : MatchIdsWf Engine.init := by
  intro i _
  rfl

theorem matchIdsWf_applyOp (s : Engine) (op : FF01Op) (h : MatchIdsWf s) :
    MatchIdsWf (applyOp s op) := by
  cases op with
  | createLobby c f now =>
      intro i hi
      exact h i hi
  | joinLobby lid p v =>
      simp only [applyOp]
      cases hj : join_lobby s lid p v with
      | error e => exact h
      | ok s' =>
          obtain ⟨lob, h1, h2, h3, h4, hmat, h6, hnext, h8⟩ :=
            join_lobby_ok_inv s lid p v s' hj
          dsimp only
          intro i hi
          rw [hmat]
          rw [hnext] at hi
          exact h i hi
  | startMatch lid c now =>
      simp only [applyOp]
      cases hst : start_match s lid c now with
      | error e => exact h
      | ok r =>
          obtain ⟨lob, h1, h2, h3, hmid, h5, hmat, h7, hnext, h9⟩ :=
            start_match_ok_inv s lid c now r hst
          dsimp only
          intro i hi
          rw [hmat, hmid]
          rw [hnext] at hi
          have hne : mkMatchId i ≠ mkMatchId s.next_match_id := by
            intro hc
            have := mkMatchId_inj _ _ hc
            omega
          rw [dget_dset_ne _ _ _ _ (fun hc => hne hc.symm)]
          exact h i (by omega)
  | recordKill mid k v c =>
      simp only [applyOp]
      rcases record_kill_cases s mid k v c with heq | ⟨m, hm, -, -, hmat, hnext⟩
      · rw [heq]
        exact h
      · intro i hi
        rw [hmat]
        rw [hnext] at hi
        have hne : mid ≠ mkMatchId i := by
          intro hc
          rw [hc, h i hi] at hm
          cases hm
        rw [dget_dset_ne _ _ _ _ hne]
        exact h i hi
  | endMatch mid w c now =>
      simp only [applyOp]
      cases he : end_match s mid w c now with
      | error e => exact h
      | ok s' =>
          obtain ⟨m, hm, h1, hmat, hnext⟩ := end_match_ok_inv s mid w c now s' he
          dsimp only
          intro i hi
          rw [hmat]
          rw [hnext] at hi
          have hne : mid ≠ mkMatchId i := by
            intro hc
            rw [hc, h i hi] at hm
            cases hm
          rw [dget_dset_ne _ _ _ _ hne]
          exact h i hi

theorem killsMono_refl (k : List (String × Nat)) : KillsMono k k :=
  fun key v h => ⟨v, h, le_refl v⟩

theorem killsMono_trans {k₁ k₂ k₃ : List (String × Nat)}
    (h₁ : KillsMono k₁ k₂) (h₂ : KillsMono k₂ k₃) : KillsMono k₁ k₃ := by
  intro key v h
  obtain ⟨v', hv', hle'⟩ := h₁ key v h
  obtain ⟨v'', hv'', hle''⟩ := h₂ key v' hv'
  exact ⟨v'', hv'', le_trans hle' hle''⟩

theorem killsMono_killsAfter (k : List (String × Nat)) (killer : String) :
    KillsMono k (killsAfter k killer) := by
  intro key v hv
  unfold killsAfter
  split
  · by_cases hk : killer = key
    · subst hk
      refine ⟨(dget k killer).getD 0 + 1, dget_dset_self .., ?_⟩
      rw [hv]
      simp
    · exact ⟨v, by rw [dget_dset_ne _ _ _ _ hk]; exact hv, le_refl v⟩
  · exact ⟨v, hv, le_refl v⟩

theorem match_entry_applyOp (s : Engine) (op : FF01Op) (mid : String)
    (m : MatchResult) (hwf : MatchIdsWf s) (hm : dget s.matches_ mid = some m) :
    ∃ m', dget (applyOp s op).matches_ mid = some m' ∧ KillsMono m.kills m'.kills := by
  cases op with
  | createLobby c f now => exact ⟨m, hm, killsMono_refl _⟩
  | joinLobby lid p v =>
      simp only [applyOp]
      cases hj : join_lobby s lid p v with
      | error e => exact ⟨m, hm, killsMono_refl _⟩
      | ok s' =>
          obtain ⟨lob, h1, h2, h3, h4, hmat, h6, h7, h8⟩ :=
            join_lobby_ok_inv s lid p v s' hj
          dsimp only
          rw [hmat]
          exact ⟨m, hm, killsMono_refl _⟩
  | startMatch lid c now =>
      simp only [applyOp]
      cases hst : start_match s lid c now with
      | error e => exact ⟨m, hm, killsMono_refl _⟩
      | ok r =>
          obtain ⟨lob, h1, h2, h3, hmid, h5, hmat, h7, h8, h9⟩ :=
            start_match_ok_inv s lid c now r hst
          dsimp only
          rw [hmat, hmid]
          have hne : mkMatchId s.next_match_id ≠ mid := by
            intro hc
            rw [← hc, hwf s.next_match_id (le_refl _)] at hm
            cases hm
          rw [dget_dset_ne _ _ _ _ hne]
          exact ⟨m, hm, killsMono_refl _⟩
  | recordKill mid0 k v c =>
      simp only [applyOp]
      rcases record_kill_cases s mid0 k v c with heq | ⟨m0, hm0, -, -, hmat, -⟩
      · rw [heq]
        exact ⟨m, hm, killsMono_refl _⟩
      · rw [hmat]
        by_cases hid : mid0 = mid
        · subst hid
          rw [hm0] at hm
          injection hm with hm
          subst hm
          exact ⟨_, dget_dset_self .., killsMono_killsAfter _ _⟩
        · rw [dget_dset_ne _ _ _ _ hid]
          exact ⟨m, hm, killsMono_refl _⟩
  | endMatch mid0 w c now =>
      simp only [applyOp]
      cases he : end_match s mid0 w c now with
      | error e => exact ⟨m, hm, killsMono_refl _⟩
      | ok s' =>
          obtain ⟨m0, hm0, h1, hmat, h4⟩ := end_match_ok_inv s mid0 w c now s' he
          dsimp only
          rw [hmat]
          by_cases hid : mid0 = mid
          · subst hid
            rw [hm0] at hm
            injection hm with hm
            subst hm
            exact ⟨_, dget_dset_self .., killsMono_refl _⟩
          · rw [dget_dset_ne _ _ _ _ hid]
            exact ⟨m, hm, killsMono_refl _⟩

theorem match_entry_applyOps (s : Engine) (ops : List FF01Op) (mid : String)
    (m : MatchResult) (hwf : MatchIdsWf s) (hm : dget s.matches_ mid = some m) :
    ∃ m', dget (applyOps s ops).matches_ mid = some m' ∧ KillsMono m.kills m'.kills := by
  induction ops generalizing s m with
  | nil => exact ⟨m, hm, killsMono_refl _⟩
  | cons op rest ih =>
      obtain ⟨m1, hm1, hmono1⟩ := match_entry_applyOp s op mid m hwf hm
      obtain ⟨m2, hm2, hmono2⟩ := ih (applyOp s op) m1 (matchIdsWf_applyOp s op hwf) hm1
      exact ⟨m2, hm2, killsMono_trans hmono1 hmono2⟩

theorem matchIdsWf_applyOps (s : Engine) (ops : List FF01Op) (h : MatchIdsWf s) :
    MatchIdsWf (applyOps s ops) := by
  induction ops generalizing s with
  | nil => exact h
  | cons op rest ih => exact ih _ (matchIdsWf_applyOp s op h)

/-- Counterexample to claim C4: in the scenario match the kill mapping starts
with exactly the four lobby members; a single `record_kill` by "ALICE"
(case-variant of member "Alice") adds the key "ALICE" — a string that was not
a member of the originating lobby at start time — growing the key set to five
entries, so the participant count used by `claim_prize` changes after
start. -/
theorem C4_counterexample :
    get_lobby ENG_START "lobby-1" =
      some ⟨"lobby-1", "Alice", ["Alice", "Bob", "Carol", "Dave"],
        FF01Phase.IN_PROGRESS, some "match-1", 5, 10000000000000000⟩ ∧
    (get_match ENG_START "match-1").map (fun m => m.kills.map Prod.fst) =
      some ["Alice", "Bob", "Carol", "Dave"] ∧
    (get_match (record_kill ENG_START "match-1" "ALICE" "Bob" "ref")
        "match-1").map (fun m => m.kills.map Prod.fst) =
      some ["Alice", "Bob", "Carol", "Dave", "ALICE"] ∧
    ("ALICE" ∈ (["Alice", "Bob", "Carol", "Dave"] : List String)) = False ∧
    (get_match (record_kill ENG_START "match-1" "ALICE" "Bob" "ref")
        "match-1").map (fun m => m.kills.length) = some 5 := by
  refine ⟨by decide, by decide, by decide, by simp, by decide⟩

/-- Claim C4 as amended: `start_match` initializes the kill mapping with an
entry of zero for every lobby member at start time; from the initial engine
state, under any sequence of operations a match's kill-mapping entry is never
removed and its value never decreases; but the key set is NOT fixed: a
case-variant killer string can add a new key (the counterexample), so the
participant count used by `claim_prize` may grow after start. -/
theorem C4_kills_monotone :
    (∀ (s : Engine) (lid caller : String) (now : Nat) (r : Engine × String),
      start_match s lid caller now = .ok r →
      ∃ lobby, dget s.lobbies lid = some lobby ∧
        dget r.1.matches_ r.2 = some (newMatch r.2 lobby.players now) ∧
        ∀ p ∈ lobby.players, dget (newMatch r.2 lobby.players now).kills p = some 0) ∧
    (∀ (ops₁ ops₂ : List FF01Op) (mid : String) (m : MatchResult),
      dget (applyOps Engine.init ops₁).matches_ mid = some m →
      ∃ m', dget (applyOps Engine.init (ops₁ ++ ops₂)).matches_ mid = some m' ∧
        ∀ key v, dget m.kills key = some v →
          ∃ v', dget m'.kills key = some v' ∧ v ≤ v') := by
  constructor
  · intro s lid caller now r hok
    obtain ⟨lobby, hlob, -, -, -, -, hmat, -, -, -⟩ :=
      start_match_ok_inv s lid caller now r hok
    refine ⟨lobby, hlob, by rw [hmat]; exact dget_dset_self .., ?_⟩
    intro p hp
    show dget (lobby.players.foldl (fun d q => dset d q 0) []) p = some 0
    rw [dget_seed_fold]
    simp [hp]
  · intro ops₁ ops₂ mid m hm
    rw [applyOps, List.foldl_append]
    exact match_entry_applyOps _ ops₂ mid m
      (matchIdsWf_applyOps Engine.init ops₁ matchIdsWf_init) hm

/-- Witness for C4 (amended): the scenario start seeds zero kills for the
four members, and across the three recorded kills plus the match end the
entry for "Alice" only grows (0 to 2). -/
theorem C4_kills_monotone_witness :
    (∃ lobby, dget ENG_LOBBY.lobbies "lobby-1" = some lobby ∧
      dget (applyOp ENG_LOBBY (.startMatch "lobby-1" "Alice" 10)).matches_
          "match-1" = some (newMatch "match-1" lobby.players 10) ∧
      ∀ p ∈ lobby.players,
        dget (newMatch "match-1" lobby.players 10).kills p = some 0) ∧
    (∃ m', dget (applyOps Engine.init ([
        FF01Op.createLobby "Alice" 10000000000000000 5,
        FF01Op.joinLobby "lobby-1" "Alice" 10000000000000000,
        FF01Op.joinLobby "lobby-1" "Bob" 10000000000000000,
        FF01Op.joinLobby "lobby-1" "Carol" 10000000000000000,
        FF01Op.joinLobby "lobby-1" "Dave" 10000000000000000,
        FF01Op.startMatch "lobby-1" "Alice" 10] ++ [
        FF01Op.recordKill "match-1" "Alice" "Bob" "x",
        FF01Op.recordKill "match-1" "Alice" "Carol" "x",
        FF01Op.recordKill "match-1" "Bob" "Dave" "x",
        FF01Op.endMatch "match-1" (some "Alice") "x" 20])).matches_ "match-1" =
        some m' ∧
      ∀ key v, dget (newMatch "match-1" ["Alice", "Bob", "Carol", "Dave"] 10).kills
          key = some v → ∃ v', dget m'.kills key = some v' ∧ v ≤ v') := by
  constructor
  · have h := C4_kills_monotone.1 ENG_LOBBY "lobby-1" "Alice" 10
      (applyOp ENG_LOBBY (.startMatch "lobby-1" "Alice" 10), "match-1") (by decide)
    obtain ⟨lobby, hlob, hmat, hseed⟩ := h
    exact ⟨lobby, hlob, hmat, hseed⟩
  · exact C4_kills_monotone.2 [
      FF01Op.createLobby "Alice" 10000000000000000 5,
      FF01Op.joinLobby "lobby-1" "Alice" 10000000000000000,
      FF01Op.joinLobby "lobby-1" "Bob" 10000000000000000,
      FF01Op.joinLobby "lobby-1" "Carol" 10000000000000000,
      FF01Op.joinLobby "lobby-1" "Dave" 10000000000000000,
      FF01Op.startMatch "lobby-1" "Alice" 10] [
      FF01Op.recordKill "match-1" "Alice" "Bob" "x",
      FF01Op.recordKill "match-1" "Alice" "Carol" "x",
      FF01Op.recordKill "match-1" "Bob" "Dave" "x",
      FF01Op.endMatch "match-1" (some "Alice") "x" 20] "match-1"
      (newMatch "match-1" ["Alice", "Bob", "Carol", "Dave"] 10) (by decide)

theorem ff01_settle_step_eq (season : Int) (now : Nat)
    (ps : List (String × PlayerProfile)) (entry : String × Nat) :
    ff01_settle_step season now ps entry =
      dset ps (pyLower entry.1)
        (settledProfile (dget ps (pyLower entry.1)) entry.1 entry.2 season now) := rfl

theorem end_match_ok_profiles (s : Engine) (mid : String) (w : Option String)
    (caller : String) (now : Nat) (m : MatchResult)
    (hm : dget s.matches_ mid = some m) :
    end_match s mid w caller now = .ok { s with
      matches_ := dset s.matches_ mid { m with winner := w, ended_at := now },
      profiles := winnerBoost (ff01_settle_all s.current_season_id now s.profiles m.kills) w,
      event_log := s.event_log ++ [FF01Event.MatchEnded mid w] } := by
  simp only [end_match, hm]
  cases w with
  | none => rfl
  | some wn => rfl

theorem settle_all_frame (season : Int) (now : Nat) :
    ∀ (kills : List (String × Nat)) (ps : List (String × PlayerProfile)) (key : String),
      key ∉ kills.map (fun e => pyLower e.1) →
      dget (ff01_settle_all season now ps kills) key = dget ps key := by
  intro kills
  induction kills with
  | nil => intro ps key h; rfl
  | cons e rest ih =>
      intro ps key h
      simp only [List.map_cons, List.mem_cons, not_or] at h
      obtain ⟨h1, h2⟩ := h
      show dget (ff01_settle_all season now (ff01_settle_step season now ps e) rest) key
        = dget ps key
      rw [ih _ _ h2, ff01_settle_step_eq]
      exact dget_dset_ne _ _ _ _ (fun hc => h1 hc.symm)

theorem settle_all_update (season : Int) (now : Nat) :
    ∀ (kills : List (String × Nat)) (ps : List (String × PlayerProfile)),
      (kills.map (fun e => pyLower e.1)).Nodup →
      ∀ addr k, (addr, k) ∈ kills →
        dget (ff01_settle_all season now ps kills) (pyLower addr) =
          some (settledProfile (dget ps (pyLower addr)) addr k season now) := by
  intro kills
  induction kills with
  | nil => intro ps hnd addr k h; cases h
  | cons e rest ih =>
      obtain ⟨a0, k0⟩ := e
      intro ps hnd addr k hmem
      simp only [List.map_cons, List.nodup_cons] at hnd
      obtain ⟨hhead, hrest⟩ := hnd
      rcases List.mem_cons.mp hmem with heq | hmem'
      · injection heq with h1 h2
        subst h1
        subst h2
        show dget (ff01_settle_all season now
          (ff01_settle_step season now ps (addr, k)) rest) (pyLower addr) = _
        rw [settle_all_frame _ _ _ _ _ hhead, ff01_settle_step_eq]
        exact dget_dset_self ..
      · have hin : pyLower addr ∈ rest.map (fun e => pyLower e.1) := by
          exact List.mem_map_of_mem _ hmem'
        have hne : pyLower a0 ≠ pyLower addr := fun hc => hhead (hc ▸ hin)
        show dget (ff01_settle_all season now
          (ff01_settle_step season now ps (a0, k0)) rest) (pyLower addr) = _
        rw [ih _ hrest addr k hmem', ff01_settle_step_eq, dget_dset_ne _ _ _ _ hne]

theorem winnerBoost_none (P : List (String × PlayerProfile)) (wn : String)
    (h : dget P (pyNorm wn) = none) :
    dget (winnerBoost P (some wn)) (pyNorm wn) = none := by
  unfold winnerBoost
  dsimp only
  by_cases he : wn = ""
  · rw [if_neg (by simp [he])]
    exact h
  · rw [if_pos he, h]
    exact h

/-- Counterexample to claim C1: in the scenario match "Dave" is a participant
with zero kills and no prior profile; `end_match` nevertheless creates a
profile for him, with `total_matches` incremented to one — so a zero-kill
participant does NOT remain untouched, and a zero-kill winner who is a
participant would equally get a profile. -/
theorem C1_counterexample :
    dget ENG_MATCH.profiles "dave" = none ∧
    (get_match ENG_MATCH "match-1").map (fun m => dget m.kills "Dave") =
      some (some 0) ∧
    dget ENG_END.profiles "dave" = some ⟨"Dave", 0, 0, 1, 0, 1, 20⟩ := by
  refine ⟨by decide, by decide, by decide⟩

/-- Claim C1 as amended: `end_match` on a known match stamps winner and end
time, appends MatchEnded, and settles EVERY kill-map entry — including those
with zero kills: each participant's profile is looked up under the lowercased
entry key or freshly created (original casing, current season, `now`), its
`total_kills` grows by exactly the entry's kill count, `total_matches` by
exactly one and experience by kills x 100; afterwards, if a non-empty winner
is given and a profile exists under the winner's normalized address, that
profile gains one win and the 500 win-experience bonus (`winnerBoost`);
profiles of addresses not among the lowercased entry keys are untouched by
settlement, so a winner who is not a kill-map participant and has no prior
profile remains profile-less. -/
theorem C1_end_match_settlement (s : Engine) (mid : String) (w : Option String)
    (caller : String) (now : Nat) (m : MatchResult)
    (hm : dget s.matches_ mid = some m)
    (hnd : (m.kills.map (fun e => pyLower e.1)).Nodup) :
    ∃ s', end_match s mid w caller now = .ok s' ∧
      dget s'.matches_ mid = some { m with winner := w, ended_at := now } ∧
      s'.event_log = s.event_log ++ [FF01Event.MatchEnded mid w] ∧
      s'.profiles =
        winnerBoost (ff01_settle_all s.current_season_id now s.profiles m.kills) w ∧
      (∀ addr k, (addr, k) ∈ m.kills →
        dget (ff01_settle_all s.current_season_id now s.profiles m.kills)
            (pyLower addr) =
          some (settledProfile (dget s.profiles (pyLower addr)) addr k
            s.current_season_id now)) ∧
      (∀ key, key ∉ m.kills.map (fun e => pyLower e.1) →
        dget (ff01_settle_all s.current_season_id now s.profiles m.kills) key =
          dget s.profiles key) ∧
      (∀ wn, w = some wn → pyNorm wn ∉ m.kills.map (fun e => pyLower e.1) →
        dget s.profiles (pyNorm wn) = none →
        dget s'.profiles (pyNorm wn) = none) := by
  refine ⟨_, end_match_ok_profiles s mid w caller now m hm, ?_, rfl, rfl, ?_, ?_, ?_⟩
  · exact dget_dset_self ..
  · intro addr k hmem
    exact settle_all_update s.current_season_id now m.kills s.profiles hnd addr k hmem
  · intro key hkey
    exact settle_all_frame s.current_season_id now m.kills s.profiles key hkey
  · intro wn hw hnotin hnone
    subst hw
    show dget (winnerBoost
      (ff01_settle_all s.current_season_id now s.profiles m.kills) (some wn))
      (pyNorm wn) = none
    apply winnerBoost_none
    rw [settle_all_frame s.current_season_id now m.kills s.profiles _ hnotin]
    exact hnone

/-- Witness for C1 (amended): ending the scenario match settles all four
participants (Alice with 2 kills, Bob with 1, Carol and Dave with 0) and
boosts winner Alice. -/
theorem C1_end_match_settlement_witness :
    ∃ s', end_match ENG_MATCH "match-1" (some "Alice") "x" 20 = .ok s' ∧
      dget s'.matches_ "match-1" =
        some { (⟨"match-1", none,
          [("Alice", 2), ("Bob", 1), ("Carol", 0), ("Dave", 0)], 10, 0⟩ : MatchResult)
          with winner := some "Alice", ended_at := 20 } ∧
      s'.event_log = ENG_MATCH.event_log ++
        [FF01Event.MatchEnded "match-1" (some "Alice")] ∧
      s'.profiles = winnerBoost (ff01_settle_all ENG_MATCH.current_season_id 20
        ENG_MATCH.profiles
        [("Alice", 2), ("Bob", 1), ("Carol", 0), ("Dave", 0)]) (some "Alice") ∧
      (∀ addr k,
        (addr, k) ∈ [("Alice", 2), ("Bob", 1), ("Carol", 0), ("Dave", 0)] →
        dget (ff01_settle_all ENG_MATCH.current_season_id 20 ENG_MATCH.profiles
            [("Alice", 2), ("Bob", 1), ("Carol", 0), ("Dave", 0)]) (pyLower addr) =
          some (settledProfile (dget ENG_MATCH.profiles (pyLower addr)) addr k
            ENG_MATCH.current_season_id 20)) ∧
      (∀ key, key ∉ [("Alice", 2), ("Bob", 1), ("Carol", 0), ("Dave", 0)].map
          (fun e => pyLower e.1) →
        dget (ff01_settle_all ENG_MATCH.current_season_id 20 ENG_MATCH.profiles
          [("Alice", 2), ("Bob", 1), ("Carol", 0), ("Dave", 0)]) key =
          dget ENG_MATCH.profiles key) ∧
      (∀ wn, (some "Alice" : Option String) = some wn →
        pyNorm wn ∉ [("Alice", 2), ("Bob", 1), ("Carol", 0), ("Dave", 0)].map
          (fun e => pyLower e.1) →
        dget ENG_MATCH.profiles (pyNorm wn) = none →
        dget s'.profiles (pyNorm wn) = none) :=
  C1_end_match_settlement ENG_MATCH "match-1" (some "Alice") "x" 20
    ⟨"match-1", none, [("Alice", 2), ("Bob", 1), ("Carol", 0), ("Dave", 0)], 10, 0⟩
    (by decide) (by decide)

/-- Claim C2: on a match whose end time is set, `claim_prize` returns
`floor(participantCount x canonicalEntryFee x prizeBasisPoints / denom)` —
computed from the fixed canonical fee constant, never from the lobby's
configured fee — exactly when the caller's normalized address equals the
(non-empty) winner's normalized address, and 0 for every other caller (also
for a match without winner); the function is a pure read (its embedding
returns no state, mirroring that the Python method performs no mutation), so
repeated calls with the same arguments return the same value; on the §8
scenario, winner Alice gets floor(4 x 10^16 x 8500 / 10000) and non-winner
Bob gets 0. -/
theorem C2_claim_prize (s : Engine) (mid player : String) (m : MatchResult)
    (hm : dget s.matches_ mid = some m) (hend : 0 < m.ended_at) :
    ((∀ w, m.winner = some w → w ≠ "" →
      claim_prize s mid player =
        .ok (if pyNorm player = pyNorm w
          then m.kills.length * FF01_ENTRY_FEE_WEI * FF01_PRIZE_POOL_BP / FF01_BP_DENOM
          else 0)) ∧
     (m.winner = none → claim_prize s mid player = .ok 0) ∧
     claim_prize s mid player = claim_prize s mid player) ∧
    claim_prize ENG_END "match-1" "Alice" =
      .ok (4 * FF01_ENTRY_FEE_WEI * FF01_PRIZE_POOL_BP / FF01_BP_DENOM) ∧
    claim_prize ENG_END "match-1" "Alice" = .ok 34000000000000000 ∧
    claim_prize ENG_END "match-1" "Bob" = .ok 0 := by
  refine ⟨⟨?_, ?_, rfl⟩, by decide, by decide, by decide⟩
  · intro w hw hne
    simp only [claim_prize, hm, hw]
    rw [if_neg (by omega)]
    by_cases heq : pyNorm player = pyNorm w
    · rw [if_pos ⟨hne, heq⟩, if_pos heq]
    · rw [if_neg (fun hc => heq hc.2), if_neg heq]
  · intro hw
    simp only [claim_prize, hm, hw]
    rw [if_neg (by omega)]

/-- Witness for C2: the winner branch and the non-winner branch applied on
the ended scenario match. -/
theorem C2_claim_prize_witness :
    claim_prize ENG_END "match-1" "Alice" =
      .ok (if pyNorm "Alice" = pyNorm "Alice"
        then ([("Alice", 2), ("Bob", 1), ("Carol", 0), ("Dave", 0)] :
            List (String × Nat)).length *
          FF01_ENTRY_FEE_WEI * FF01_PRIZE_POOL_BP / FF01_BP_DENOM
        else 0) ∧
    claim_prize ENG_END "match-1" "Bob" =
      .ok (if pyNorm "Bob" = pyNorm "Alice"
        then ([("Alice", 2), ("Bob", 1), ("Carol", 0), ("Dave", 0)] :
            List (String × Nat)).length *
          FF01_ENTRY_FEE_WEI * FF01_PRIZE_POOL_BP / FF01_BP_DENOM
        else 0) :=
  ⟨((C2_claim_prize ENG_END "match-1" "Alice"
      ⟨"match-1", some "Alice", [("Alice", 2), ("Bob", 1), ("Carol", 0), ("Dave", 0)],
        10, 20⟩ (by decide) (by decide)).1).1 "Alice" rfl (by decide),
   ((C2_claim_prize ENG_END "match-1" "Bob"
      ⟨"match-1", some "Alice", [("Alice", 2), ("Bob", 1), ("Carol", 0), ("Dave", 0)],
        10, 20⟩ (by decide) (by decide)).1).1 "Alice" rfl (by decide)⟩

theorem lobbyCapInv_init : LobbyCapInv Engine.init := by
  intro lid lobby h
  cases h

theorem lobbyCapInv_applyOp (s : Engine) (op : FF01Op) (h : LobbyCapInv s) :
    LobbyCapInv (applyOp s op) := by
  cases op with
  | createLobby c f now =>
      intro lid lobby hl
      simp only [applyOp, create_lobby] at hl
      by_cases hid : lid = mkLobbyId s.next_lobby_id
      · subst hid
        rw [dget_dset_self] at hl
        injection hl with hl
        subst hl
        simp [FF01_MAX_PLAYERS_PER_LOBBY]
      · rw [dget_dset_ne _ _ _ _ (fun hc => hid hc.symm)] at hl
        exact h _ _ hl
  | joinLobby lid0 p v =>
      intro lid lobby hl
      simp only [applyOp] at hl
      cases hj : join_lobby s lid0 p v with
      | error e => rw [hj] at hl; exact h _ _ hl
      | ok s' =>
          rw [hj] at hl
          obtain ⟨lob0, hlob0, hph, hroom, hlobbies, -, -, -, -⟩ :=
            join_lobby_ok_inv s lid0 p v s' hj
          rw [hlobbies] at hl
          by_cases hid : lid = lid0
          · subst hid
            rw [dget_dset_self] at hl
            injection hl with hl
            subst hl
            simp only [joinPlayers]
            split
            · exact h _ _ hlob0
            · simpa using hroom
          · rw [dget_dset_ne _ _ _ _ (fun hc => hid hc.symm)] at hl
            exact h _ _ hl
  | startMatch lid0 c now =>
      intro lid lobby hl
      simp only [applyOp] at hl
      cases hst : start_match s lid0 c now with
      | error e => rw [hst] at hl; exact h _ _ hl
      | ok r =>
          rw [hst] at hl
          obtain ⟨lob0, hlob0, -, -, -, hlobbies, -, -, -, -⟩ :=
            start_match_ok_inv s lid0 c now r hst
          rw [hlobbies] at hl
          by_cases hid : lid = lid0
          · subst hid
            rw [dget_dset_self] at hl
            injection hl with hl
            subst hl
            exact h _ lob0 hlob0
          · rw [dget_dset_ne _ _ _ _ (fun hc => hid hc.symm)] at hl
            exact h _ _ hl
  | recordKill mid k v c =>
      intro lid lobby hl
      simp only [applyOp] at hl
      rcases record_kill_cases s mid k v c with heq | ⟨m, -, -, hlobbies, -, -⟩
      · rw [heq] at hl; exact h _ _ hl
      · rw [hlobbies] at hl; exact h _ _ hl
  | endMatch mid w c now =>
      intro lid lobby hl
      simp only [applyOp] at hl
      cases he : end_match s mid w c now with
      | error e => rw [he] at hl; exact h _ _ hl
      | ok s' =>
          rw [he] at hl
          obtain ⟨m, -, hlobbies, -, -⟩ := end_match_ok_inv s mid w c now s' he
          rw [hlobbies] at hl
          exact h _ _ hl

theorem lobbyCapInv_applyOps (s : Engine) (ops : List FF01Op) (h : LobbyCapInv s) :
    LobbyCapInv (applyOps s ops) := by
  induction ops generalizing s with
  | nil => exact h
  | cons op rest ih => exact ih _ (lobbyCapInv_applyOp s op h)

/-- Claim C7: starting from the freshly constructed engine, no sequence of
operations ever makes a lobby's membership list exceed the maximum lobby
size; and a successful `join_lobby` whose player address normalizes
(stripped, lowercased) to an address already present in the membership list
(compared case-insensitively, as the source does) leaves the membership list
unchanged while still appending a PlayerJoined event, whereas a player whose
normalized address is new is appended with original casing preserved (again
with the event appended). -/
theorem C7_capacity_and_idempotent_join :
    (∀ ops lid lobby, dget (applyOps Engine.init ops).lobbies lid = some lobby →
      lobby.players.length ≤ FF01_MAX_PLAYERS_PER_LOBBY) ∧
    (∀ (s : Engine) (lid player : String) (v : Int) (lobby : LobbyState),
      dget s.lobbies lid = some lobby →
      lobby.phase = FF01Phase.WAITING →
      lobby.players.length < FF01_MAX_PLAYERS_PER_LOBBY →
      lobby.entry_fee_wei ≤ v →
      ((pyNorm player ∈ lobby.players.map pyLower →
        ∃ s', join_lobby s lid player v = .ok s' ∧
          dget s'.lobbies lid = some lobby ∧
          s'.event_log = s.event_log ++ [FF01Event.PlayerJoined lid player]) ∧
       (pyNorm player ∉ lobby.players.map pyLower →
        ∃ s', join_lobby s lid player v = .ok s' ∧
          dget s'.lobbies lid =
            some { lobby with players := lobby.players ++ [player] } ∧
          s'.event_log = s.event_log ++ [FF01Event.PlayerJoined lid player]))) := by
  constructor
  · intro ops lid lobby hl
    exact lobbyCapInv_applyOps Engine.init ops lobbyCapInv_init lid lobby hl
  · intro s lid player v lobby hlob hph hroom hval
    have hok : join_lobby s lid player v =
        .ok { s with
          lobbies := dset s.lobbies lid
            { lobby with players := joinPlayers lobby.players player },
          event_log := s.event_log ++ [FF01Event.PlayerJoined lid player] } := by
      simp only [join_lobby, hlob]
      rw [if_neg (by simp [hph]), if_neg (not_le.mpr hroom), if_neg (not_lt.mpr hval)]
      rfl
    constructor
    · intro hmem
      refine ⟨_, hok, ?_, rfl⟩
      have : joinPlayers lobby.players player = lobby.players := by
        simp [joinPlayers, hmem]
      rw [show ({ lobby with players := joinPlayers lobby.players player } : LobbyState)
            = lobby by rw [this]]
      exact dget_dset_self ..
    · intro hmem
      refine ⟨_, hok, ?_, rfl⟩
      have : joinPlayers lobby.players player = lobby.players ++ [player] := by
        simp [joinPlayers, hmem]
      rw [show ({ lobby with players := joinPlayers lobby.players player } : LobbyState)
            = { lobby with players := lobby.players ++ [player] } by rw [this]]
      exact dget_dset_self ..

/-- Witness for C7: the four-player scenario lobby respects the capacity
bound, rejoining "ALICE  " (normalizing to the already present "Alice")
leaves membership unchanged while appending the join event, and joining the
new player "Eve" appends her. -/
theorem C7_capacity_and_idempotent_join_witness :
    (∃ lobby, dget (applyOps Engine.init [
        FF01Op.createLobby "Alice" 10000000000000000 5,
        FF01Op.joinLobby "lobby-1" "Alice" 10000000000000000,
        FF01Op.joinLobby "lobby-1" "Bob" 10000000000000000,
        FF01Op.joinLobby "lobby-1" "Carol" 10000000000000000,
        FF01Op.joinLobby "lobby-1" "Dave" 10000000000000000]).lobbies "lobby-1" =
        some lobby ∧ lobby.players.length ≤ FF01_MAX_PLAYERS_PER_LOBBY) ∧
    (∃ s', join_lobby ENG_LOBBY "lobby-1" "ALICE  " 10000000000000000 = .ok s' ∧
      dget s'.lobbies "lobby-1" = some
        ⟨"lobby-1", "Alice", ["Alice", "Bob", "Carol", "Dave"], FF01Phase.WAITING,
          none, 5, 10000000000000000⟩ ∧
      s'.event_log = ENG_LOBBY.event_log ++
        [FF01Event.PlayerJoined "lobby-1" "ALICE  "]) ∧
    (∃ s', join_lobby ENG_LOBBY "lobby-1" "Eve" 10000000000000000 = .ok s' ∧
      dget s'.lobbies "lobby-1" = some
        ⟨"lobby-1", "Alice", ["Alice", "Bob", "Carol", "Dave", "Eve"],
          FF01Phase.WAITING, none, 5, 10000000000000000⟩ ∧
      s'.event_log = ENG_LOBBY.event_log ++
        [FF01Event.PlayerJoined "lobby-1" "Eve"]) :=
  ⟨⟨_, rfl, C7_capacity_and_idempotent_join.1 [
      FF01Op.createLobby "Alice" 10000000000000000 5,
      FF01Op.joinLobby "lobby-1" "Alice" 10000000000000000,
      FF01Op.joinLobby "lobby-1" "Bob" 10000000000000000,
      FF01Op.joinLobby "lobby-1" "Carol" 10000000000000000,
      FF01Op.joinLobby "lobby-1" "Dave" 10000000000000000] "lobby-1" _ rfl⟩,
   (C7_capacity_and_idempotent_join.2 ENG_LOBBY "lobby-1" "ALICE  "
      10000000000000000
      ⟨"lobby-1", "Alice", ["Alice", "Bob", "Carol", "Dave"], FF01Phase.WAITING,
        none, 5, 10000000000000000⟩
      (by decide) (by decide) (by decide) (by decide)).1 (by decide),
   (C7_capacity_and_idempotent_join.2 ENG_LOBBY "lobby-1" "Eve"
      10000000000000000
      ⟨"lobby-1", "Alice", ["Alice", "Bob", "Carol", "Dave"], FF01Phase.WAITING,
        none, 5, 10000000000000000⟩
      (by decide) (by decide) (by decide) (by decide)).2 (by decide)⟩

/-- Counterexample to claim C8: on a known lobby whose membership (0 players)
is below the minimum threshold, a caller "B" who is not the creator "A" gets
the NotGameMaster authorization error, not the LobbyFull capacity error — so
the capacity error is not raised "regardless of the caller's identity". -/
theorem C8_counterexample :
    (get_lobby (create_lobby Engine.init "A" 50 7).1 "lobby-1").map
        (fun l => l.players.length) = some 0 ∧
    start_match (create_lobby Engine.init "A" 50 7).1 "lobby-1" "B" 9 =
      .error FF01Err.NotGameMaster ∧
    start_match (create_lobby Engine.init "A" 50 7).1 "lobby-1" "B" 9 ≠
      .error (FF01Err.LobbyFull "lobby-1") := by
  refine ⟨by decide, by decide, by decide⟩

/-- Claim C8 as amended: `start_match` on an unknown lobby raises the
LobbyNotFound kind; on a known lobby it raises NotGameMaster whenever the
caller's normalized address differs from the creator's normalized address
(the authorization check runs first, so this happens regardless of the member
count); the LobbyFull-kind capacity error is raised when the caller is the
creator and membership is below the minimum; and on success it sets phase to
IN_PROGRESS, links the fresh sequential match id, seeds the match with zero
kills for every current member, stamps the start time and emits MatchStarted
with the member count. -/
theorem C8_start_match_checks (s : Engine) (lid caller : String) (now : Nat) :
    (dget s.lobbies lid = none →
      start_match s lid caller now = .error (.LobbyNotFound lid)) ∧
    (∀ lobby, dget s.lobbies lid = some lobby →
      (pyNorm caller ≠ pyNorm lobby.creator →
        start_match s lid caller now = .error .NotGameMaster) ∧
      (pyNorm caller = pyNorm lobby.creator →
        lobby.players.length < FF01_MIN_PLAYERS_TO_START →
        start_match s lid caller now = .error (.LobbyFull lid)) ∧
      (pyNorm caller = pyNorm lobby.creator →
        FF01_MIN_PLAYERS_TO_START ≤ lobby.players.length →
        ∃ s', start_match s lid caller now = .ok (s', mkMatchId s.next_match_id) ∧
          dget s'.lobbies lid = some (lobbyStarted lobby (mkMatchId s.next_match_id)) ∧
          s'.next_match_id = s.next_match_id + 1 ∧
          dget s'.matches_ (mkMatchId s.next_match_id) =
            some (newMatch (mkMatchId s.next_match_id) lobby.players now) ∧
          (∀ p ∈ lobby.players,
            dget (lobby.players.foldl (fun d p => dset d p 0) []) p = some 0) ∧
          s'.event_log = s.event_log ++
            [FF01Event.MatchStarted (mkMatchId s.next_match_id) lid
              lobby.players.length])) := by
  constructor
  · intro h
    simp [start_match, h]
  · intro lobby hlob
    refine ⟨?_, ?_, ?_⟩
    · intro hne
      simp [start_match, hlob, hne]
    · intro heq hmin
      simp [start_match, hlob, heq, hmin]
    · intro heq hmin
      simp only [start_match, hlob]
      rw [if_neg (by simp [heq]), if_neg (not_lt.mpr hmin)]
      refine ⟨_, rfl, dget_dset_self .., rfl, dget_dset_self .., ?_, rfl⟩
      intro p hp
      rw [dget_seed_fold]
      simp [hp]

/-- Witness for C8 (amended): concrete inputs hitting the NotGameMaster
branch, the capacity branch for the creator, and the success branch on the
four-member lobby. -/
theorem C8_start_match_checks_witness :
    start_match (create_lobby Engine.init "A" 50 7).1 "lobby-1" "B" 9 =
      .error FF01Err.NotGameMaster ∧
    start_match (create_lobby Engine.init "A" 50 7).1 "lobby-1" "A" 9 =
      .error (FF01Err.LobbyFull "lobby-1") ∧
    ∃ s', start_match ENG_LOBBY "lobby-1" "Alice" 10 =
      .ok (s', mkMatchId ENG_LOBBY.next_match_id) :=
  ⟨((C8_start_match_checks (create_lobby Engine.init "A" 50 7).1 "lobby-1" "B" 9).2
      ⟨"lobby-1", "A", [], FF01Phase.WAITING, none, 7, 50⟩ (by decide)).1 (by decide),
   ((C8_start_match_checks (create_lobby Engine.init "A" 50 7).1 "lobby-1" "A" 9).2
      ⟨"lobby-1", "A", [], FF01Phase.WAITING, none, 7, 50⟩ (by decide)).2.1
      (by decide) (by decide),
   match ((C8_start_match_checks ENG_LOBBY "lobby-1" "Alice" 10).2
      ⟨"lobby-1", "Alice", ["Alice", "Bob", "Carol", "Dave"], FF01Phase.WAITING,
        none, 5, 10000000000000000⟩ (by decide)).2.2 (by decide) (by decide) with
   | ⟨s', hok, _⟩ => ⟨s', hok⟩⟩

/-- Claim C10: `start_match` never inspects the lobby's phase — replacing the
stored lobby's phase by any other phase yields the identical result (same
errors, same final state); in particular, for a creator caller with at least
the minimum membership it succeeds even on a lobby already IN_PROGRESS,
allocating the fresh sequential match id, overwriting the lobby's linked
match id, creating a new match seeded with zero kills, and leaving every
other match untouched. -/
theorem C10_start_match_ignores_phase (s : Engine) (lid caller : String) (now : Nat) :
    (∀ (lobby : LobbyState) (ph₁ ph₂ : FF01Phase),
      start_match { s with lobbies := dset s.lobbies lid { lobby with phase := ph₁ } }
          lid caller now =
        start_match { s with lobbies := dset s.lobbies lid { lobby with phase := ph₂ } }
          lid caller now) ∧
    (∀ lobby, dget s.lobbies lid = some lobby →
      pyNorm caller = pyNorm lobby.creator →
      FF01_MIN_PLAYERS_TO_START ≤ lobby.players.length →
      ∃ s', start_match s lid caller now = .ok (s', mkMatchId s.next_match_id) ∧
        dget s'.lobbies lid = some (lobbyStarted lobby (mkMatchId s.next_match_id)) ∧
        s'.next_match_id = s.next_match_id + 1 ∧
        dget s'.matches_ (mkMatchId s.next_match_id) =
          some (newMatch (mkMatchId s.next_match_id) lobby.players now) ∧
        (∀ p ∈ lobby.players,
          dget (lobby.players.foldl (fun d p => dset d p 0) []) p = some 0) ∧
        (∀ mid', mid' ≠ mkMatchId s.next_match_id →
          dget s'.matches_ mid' = dget s.matches_ mid')) := by
  constructor
  · intro lobby ph₁ ph₂
    simp only [start_match, dget_dset_self, dset_dset_self]
  · intro lobby hlob heq hmin
    simp only [start_match, hlob]
    rw [if_neg (by simp [heq]), if_neg (not_lt.mpr hmin)]
    refine ⟨_, rfl, dget_dset_self .., rfl, dget_dset_self .., ?_, ?_⟩
    · intro p hp
      rw [dget_seed_fold]
      simp [hp]
    · intro mid' hne
      exact dget_dset_ne _ _ _ _ (fun hc => hne hc.symm)

/-- Witness for C10: restarting the already IN_PROGRESS scenario lobby
succeeds and allocates the second sequential match id. -/
theorem C10_start_match_ignores_phase_witness :
    ∃ s', start_match ENG_MATCH "lobby-1" "Alice" 30 =
      .ok (s', mkMatchId ENG_MATCH.next_match_id) :=
  match (C10_start_match_ignores_phase ENG_MATCH "lobby-1" "Alice" 30).2
      ⟨"lobby-1", "Alice", ["Alice", "Bob", "Carol", "Dave"], FF01Phase.IN_PROGRESS,
        some "match-1", 5, 10000000000000000⟩ (by decide) (by decide) (by decide) with
  | ⟨s', hok, _⟩ => ⟨s', hok⟩

/-- Claim C9: the deterministic selectors are pure functions — two calls with
identical inputs return the identical table element; each selector equals the
generic `ff01_select` shape (hash the concatenation of seed, tag and index,
read a fixed-width hex slice of the digest as an unsigned integer, reduce it
modulo the table length); the weapon slice `[0,8)` and the loot-rarity slice
`[8,16)` of the respective digests are non-overlapping index ranges; and on
the fixed arena seed the selectors produce the concrete values computed by
the reference SHA-256. -/
theorem C9_deterministic_selectors :
    (∀ seed i, ff01_weapon_for_seed seed i = ff01_weapon_for_seed seed i ∧
      ff01_loot_rarity_for_seed seed i = ff01_loot_rarity_for_seed seed i) ∧
    (∀ mid, ff01_map_for_match mid = ff01_map_for_match mid) ∧
    (∀ seed i, ff01_weapon_for_seed seed i =
      ff01_select (seed ++ "-weapon-" ++ Nat.repr i) 0 8 FF01_WEAPON_NAMES) ∧
    (∀ seed i, ff01_loot_rarity_for_seed seed i =
      ff01_select (seed ++ "-loot-" ++ Nat.repr i) 8 16 FF01_LOOT_RARITY) ∧
    (∀ mid, ff01_map_for_match mid =
      ff01_select (FF01_ARENA_SEED ++ "-map-" ++ mid) 16 24 FF01_MAP_NAMES) ∧
    Finset.Ico 0 8 ∩ Finset.Ico 8 16 = (∅ : Finset Nat) ∧
    ff01_weapon_for_seed FF01_ARENA_SEED 0 = "ShockBaton" ∧
    ff01_loot_rarity_for_seed FF01_ARENA_SEED 0 = "Epic" ∧
    ff01_map_for_match "match-1" = "UndergroundBunker" ∧
    sha256_hexdigest "abc" =
      "ba7816bf8f01cfea414140de5dae2223b00361a396177a9cb410ff61f20015ad" :=
  ⟨fun _ _ => ⟨rfl, rfl⟩, fun _ => rfl, fun _ _ => rfl, fun _ _ => rfl, fun _ => rfl,
   by decide, by decide, by decide, by decide, by decide⟩

end FF01
